import Mathlib

/-!
# cvmfs: S3 fan-out uploader and AUFS whiteout names

A shallow embedding of `cvmfs/s3fanout.h` (namespace `s3fanout`) and of the
inline members of `SyncAufs1` in `cvmfs/src/cvmfs_sync_aufs.h`.

Conventions of the embedding:

* a C++ pointer is an address (`Ptr`), `NULL` being address `0`;
* `int`, `size_t`, `unsigned`, `unsigned char`, `uint64_t` values are integers
  or naturals; a wrap-around is written as an explicit `%`;
* a constructor receives the indeterminate previous contents of the object it
  builds as its first argument `u` and overwrites exactly the members the C++
  constructor assigns; every other member keeps the value it has in `u`;
* a `std::string` is the list of its characters.
-/

namespace s3fanout

/-! ## Data model of `s3fanout.h` -/

/-- A C++ pointer value; `NULL` is `0`. -/
abbrev Ptr := Nat

/-- The null pointer. -/
def NULL : Ptr := 0

/-- From where to read the data (`enum Origin`). -/
inductive Origin where
  | kOriginMem
  | kOriginPath
  deriving DecidableEq, Repr

/-- Numeric value of an `Origin` enumerator: `kOriginMem = 1`, then counting on. -/
def Origin.code : Origin → Nat
  | .kOriginMem => 1
  | .kOriginPath => 2

/-- Possible return values (`enum Failures`). -/
inductive Failures where
  | kFailOk
  | kFailLocalIO
  | kFailBadRequest
  | kFailForbidden
  | kFailHostResolve
  | kFailHostConnection
  | kFailNotFound
  | kFailOther
  deriving DecidableEq, Repr, Fintype

/-- Numeric value of a `Failures` enumerator: `kFailOk = 0`, then counting on. -/
def Failures.code : Failures → Nat
  | .kFailOk => 0
  | Failures.kFailLocalIO => 1
  | .kFailBadRequest => 2
  | .kFailForbidden => 3
  | .kFailHostResolve => 4
  | .kFailHostConnection => 5
  | .kFailNotFound => 6
  | .kFailOther => 7

/-- The enumerators of `Failures` in declaration order. -/
def Failures.all : List Failures :=
  [.kFailOk, Failures.kFailLocalIO, .kFailBadRequest, .kFailForbidden,
   .kFailHostResolve, .kFailHostConnection, .kFailNotFound, .kFailOther]

/-- The `struct Statistics`. The two `double` members only ever receive the
literal `0.0` in the header, so they are carried as rationals. -/
structure Statistics where
  transferred_bytes : ℚ
  transfer_time : ℚ
  num_requests : Nat
  num_retries : Nat
  deriving DecidableEq, Repr

/-- The constructor `Statistics::Statistics()`. -/
def Statistics.new : Statistics :=
  { transferred_bytes := 0, transfer_time := 0, num_requests := 0, num_retries := 0 }

/-- The `JobInfo::RequestType` enumeration. -/
inductive RequestType where
  | kReqHead
  | kReqPut
  deriving DecidableEq, Repr

/-- The anonymous struct `JobInfo::origin_mem`. -/
structure OriginMem where
  size : Nat
  pos : Nat
  data : Ptr
  deriving DecidableEq, Repr

/-- The `struct JobInfo`: everything that specifies an upload job, followed by
the internal state. -/
structure JobInfo where
  origin : Origin
  origin_mem : OriginMem
  origin_path : Ptr
  access_key : Ptr
  secret_key : Ptr
  bucket : Ptr
  object_key : Ptr
  test_and_set : Bool
  curl_handle : Ptr
  http_headers : Ptr
  origin_file : Ptr
  request : RequestType
  wait_at : Int × Int
  error_code : Failures
  num_retries : Nat
  backoff_ms : Nat
  deriving DecidableEq, Repr

/-- The default constructor `JobInfo::JobInfo()`. -/
def JobInfo.new (u : JobInfo) : JobInfo :=
  { u with wait_at := (-1, -1), http_headers := NULL }

/-- The path-origin constructor `JobInfo::JobInfo(a, s, b, k, p)`. -/
def JobInfo.newPath (u : JobInfo) (a s b k p : Ptr) : JobInfo :=
  { u with
    access_key := a, secret_key := s, bucket := b, object_key := k,
    origin := .kOriginPath, origin_path := p,
    wait_at := (-1, -1), http_headers := NULL,
    test_and_set := false }

/-- The in-memory constructor `JobInfo::JobInfo(a, s, b, k, buffer, size)`. -/
def JobInfo.newMem (u : JobInfo) (a s b k : Ptr) (buffer : Ptr) (size : Nat) : JobInfo :=
  { u with
    access_key := a, secret_key := s, bucket := b, object_key := k,
    origin := .kOriginMem,
    wait_at := (-1, -1), http_headers := NULL,
    test_and_set := false,
    origin_mem := { u.origin_mem with size := size, data := buffer } }

/-- The destructor `JobInfo::~JobInfo()`: the descriptors it passes to
`close`, in call order. -/
def JobInfo.destroy (j : JobInfo) : List Int :=
  if j.wait_at.1 ≥ 0 then [j.wait_at.1, j.wait_at.2] else []

/-- Some object contents to build examples from. -/
def JobInfo.sample : JobInfo :=
  { origin := .kOriginMem, origin_mem := { size := 7, pos := 3, data := 99 },
    origin_path := 11, access_key := 12, secret_key := 13, bucket := 14,
    object_key := 15, test_and_set := true, curl_handle := 16,
    http_headers := 17, origin_file := 18, request := .kReqPut,
    wait_at := (5, 6), error_code := .kFailOther, num_retries := 2,
    backoff_ms := 40 }

/-! ## The manager: members from `s3fanout.h`, bodies from the specification

`s3fanout.h` declares the member functions of `S3FanoutManager`; their bodies
are in `s3fanout.cc`, which is not among the sources. The data members below
are the header's. Each member function is modelled from the specification and
says so. -/

/-- The data members of `class S3FanoutManager` that the pool, the retry
policy and the statistics use. -/
structure S3FanoutManager where
  pool_handles_idle_ : Finset Ptr
  pool_handles_inuse_ : Finset Ptr
  pool_max_handles_ : Nat
  opt_timeout_ : Nat
  opt_max_retries_ : Nat
  opt_backoff_init_ms_ : Nat
  opt_backoff_max_ms_ : Nat
  opt_ipv4_only_ : Bool
  statistics_ : Statistics

/-- Some manager contents to build examples from. -/
def S3FanoutManager.sample : S3FanoutManager :=
  { pool_handles_idle_ := ∅, pool_handles_inuse_ := ∅, pool_max_handles_ := 0,
    opt_timeout_ := 20, opt_max_retries_ := 3, opt_backoff_init_ms_ := 100,
    opt_backoff_max_ms_ := 2000, opt_ipv4_only_ := false,
    statistics_ := Statistics.new }

/-- Modelled from the spec: the body of `S3FanoutManager::Init` is in
`s3fanout.cc`, absent from the sources. §4.1: "allocates the handle pool up to
`maxHandles`, stores the URL-construction capability, resets statistics".
The allocated handles are the slots `1 .. max_pool_handles`, all idle. -/
def S3FanoutManager.Init (u : S3FanoutManager) (max_pool_handles : Nat) :
    S3FanoutManager :=
  { u with
    pool_max_handles_ := max_pool_handles,
    pool_handles_idle_ := Finset.Icc 1 max_pool_handles,
    pool_handles_inuse_ := ∅,
    statistics_ := Statistics.new }

/-- Modelled from the spec: the body of `S3FanoutManager::SetRetryParameters`
is in `s3fanout.cc`, absent from the sources. §4.1 and §6: it stores the
maximum retry count, the initial backoff and the maximum backoff. -/
def S3FanoutManager.SetRetryParameters (m : S3FanoutManager)
    (max_retries backoff_init_ms backoff_max_ms : Nat) : S3FanoutManager :=
  { m with
    opt_max_retries_ := max_retries,
    opt_backoff_init_ms_ := backoff_init_ms,
    opt_backoff_max_ms_ := backoff_max_ms }

/-- Modelled from the spec: the body of `S3FanoutManager::AcquireCurlHandle`
is in `s3fanout.cc`, absent from the sources. §4.2 step 3: "if a free handle
exists, bind it (acquire from idle set)"; otherwise no handle is handed out
and the job waits in the backlog. The handle taken is the first of the idle
set. -/
def S3FanoutManager.AcquireCurlHandle (m : S3FanoutManager) :
    Option Ptr × S3FanoutManager :=
  if h : m.pool_handles_idle_.Nonempty then
    let handle := m.pool_handles_idle_.min' h
    (some handle,
     { m with
       pool_handles_idle_ := m.pool_handles_idle_.erase handle,
       pool_handles_inuse_ := insert handle m.pool_handles_inuse_ })
  else
    (none, m)

/-- Modelled from the spec: the body of `S3FanoutManager::ReleaseCurlHandle`
is in `s3fanout.cc`, absent from the sources. §4.2 step 5: "release the handle
to the idle set". A handle that is not in use is not touched. -/
def S3FanoutManager.ReleaseCurlHandle (m : S3FanoutManager) (_info : JobInfo)
    (handle : Ptr) : S3FanoutManager :=
  if handle ∈ m.pool_handles_inuse_ then
    { m with
      pool_handles_inuse_ := m.pool_handles_inuse_.erase handle,
      pool_handles_idle_ := insert handle m.pool_handles_idle_ }
  else
    m

/-- One call on the handle pool. -/
inductive PoolCall where
  | acquire
  | release (info : JobInfo) (handle : Ptr)

/-- The manager after one call on the handle pool. -/
def S3FanoutManager.poolStep (m : S3FanoutManager) : PoolCall → S3FanoutManager
  | .acquire => m.AcquireCurlHandle.2
  | .release info handle => m.ReleaseCurlHandle info handle

/-- The manager after a sequence of calls on the handle pool. -/
def S3FanoutManager.poolRun (m : S3FanoutManager) (calls : List PoolCall) :
    S3FanoutManager :=
  calls.foldl S3FanoutManager.poolStep m

/-- What the transport engine reports for a completed attempt (the
`curl_error` argument of `VerifyAndFinalize`), in the four groups §4.4 and §6
distinguish. -/
inductive TransportResult where
  | success
  | resolveFailure
  | connectionFailure
  | otherFailure
  deriving DecidableEq, Repr

/-- Modelled from the spec: the outcome classification that
`S3FanoutManager::VerifyAndFinalize` (body in `s3fanout.cc`, absent from the
sources) assigns. §4.4: name-resolution errors → host-resolution failure;
connection errors → host-connection failure; HTTP 400 → malformed-request;
HTTP 403/409 → access-denied; HTTP 404 → not-found; any other non-2xx →
other/unclassified; transport success with 2xx → success. §6: all other
transport-level failures map to the generic failure classification. -/
def classify (curl_error : TransportResult) (http_status : Nat) : Failures :=
  match curl_error with
  | .resolveFailure => .kFailHostResolve
  | .connectionFailure => .kFailHostConnection
  | .otherFailure => .kFailOther
  | .success =>
    if http_status = 400 then .kFailBadRequest
    else if http_status = 403 ∨ http_status = 409 then .kFailForbidden
    else if http_status = 404 then .kFailNotFound
    else if 200 ≤ http_status ∧ http_status < 300 then .kFailOk
    else .kFailOther

/-- Modelled from the spec: the body of `S3FanoutManager::CanRetry` is in
`s3fanout.cc`, absent from the sources. §4.5: "Retryable classifications:
host-resolution failure, host-connection failure, other/unclassified";
"retry iff classification is retryable AND current retry count < configured
maximum". -/
def S3FanoutManager.CanRetry (m : S3FanoutManager) (info : JobInfo) : Bool :=
  (match info.error_code with
   | .kFailHostResolve => true
   | .kFailHostConnection => true
   | .kFailOther => true
   | _ => false)
  && decide (info.num_retries < m.opt_max_retries_)

/-- Modelled from the spec: the body of `S3FanoutManager::Backoff` is in
`s3fanout.cc`, absent from the sources. §4.5: "exponential growth from the
configured initial value, doubling per attempt, capped at the configured
maximum, with added random jitter"; "Each retry increments both the job's
counter and the global retry statistic". A job that has not backed off yet has
`backoff_ms = 0`. The jitter lengthens the delay that is slept (third
component) and is not stored: §8 wants the stored durations non-decreasing and
at most the maximum. The doubling is done in the `unsigned` member
`backoff_ms`, so it wraps modulo `2 ^ 32`, and the cap is applied to the
doubled value. The counters wrap as `unsigned char` and `uint64_t`. -/
def S3FanoutManager.Backoff (m : S3FanoutManager) (info : JobInfo) (jitter : Nat) :
    S3FanoutManager × JobInfo × Nat :=
  let grown :=
    if info.backoff_ms = 0 then m.opt_backoff_init_ms_
    else (2 * info.backoff_ms) % 2 ^ 32
  let backoff_ms := min grown m.opt_backoff_max_ms_
  ({ m with
     statistics_ :=
       { m.statistics_ with num_retries := (m.statistics_.num_retries + 1) % 2 ^ 64 } },
   { info with num_retries := (info.num_retries + 1) % 256, backoff_ms := backoff_ms },
   backoff_ms + jitter)

/-- Modelled from the spec: the body of `S3FanoutManager::VerifyAndFinalize`
is in `s3fanout.cc`, absent from the sources. §4.2 step 5: "classify its
outcome (§4.4), consult the Retry/Backoff Policy (§4.5)". The result is
whether the attempt is to be repeated, and the job with its classification. -/
def S3FanoutManager.VerifyAndFinalize (m : S3FanoutManager)
    (curl_error : TransportResult) (http_status : Nat) (info : JobInfo) :
    Bool × JobInfo :=
  let classified := { info with error_code := classify curl_error http_status }
  (m.CanRetry classified, classified)

/-- The per-job state machine of §4.2:
`Queued → Bound → InFlight → {Retrying → InFlight} → Finalized`. -/
inductive JobState where
  | Queued
  | Bound
  | InFlight
  | Retrying
  | Finalized
  deriving DecidableEq, Repr

/-- A submitted job as the event loop sees it: its state, its `JobInfo`, and
the values written so far to its private pipe `wait_at`. -/
structure Submitted where
  state : JobState
  info : JobInfo
  written : List Failures
  deriving DecidableEq, Repr

/-- Modelled from the spec: the body of `S3FanoutManager::Push` is in
`s3fanout.cc`, absent from the sources. §4.1: "enqueues the job for the event
loop and blocks the calling thread on the job's private completion signal".
The job enters `Queued` with retry counter 0, no backoff yet and nothing
written to its pipe. -/
def S3FanoutManager.Push (info : JobInfo) : Submitted :=
  { state := .Queued, info := { info with num_retries := 0, backoff_ms := 0 },
    written := [] }

/-- What the event loop can do to one job (§4.2). -/
inductive LoopEvent where
  /-- Steps 3 and 6: a free handle is bound to the job. -/
  | bind (handle : Ptr)
  /-- §4.3/§4.4: the request is built and launched; an unreadable origin is a
  local I/O failure before any network attempt. -/
  | launch (origin_readable : Bool)
  /-- Step 5: the transfer engine reports the operation complete. -/
  | complete (curl_error : TransportResult) (http_status : Nat) (jitter : Nat)
  /-- Step 5: the backoff has elapsed and the operation is relaunched. -/
  | relaunch
  /-- Step 2: the terminate descriptor is signaled. -/
  | terminate
  deriving DecidableEq, Repr

/-- Entry to `Finalized`: the classification is written to the job's pipe. -/
def Submitted.finalize (j : Submitted) (info : JobInfo) : Submitted :=
  { state := .Finalized, info := info, written := j.written ++ [info.error_code] }

/-- Modelled from the spec: one action of `S3FanoutManager::MainUpload` (body
in `s3fanout.cc`, absent from the sources) on one job, after §4.2. An event
that does not apply in the job's state leaves the job as it is. Shutdown
classifies an unfinished job as a local I/O failure and signals it (§4.1).
The manager is read for its retry configuration; its statistics are not
followed here. -/
def Submitted.step (m : S3FanoutManager) (j : Submitted) : LoopEvent → Submitted
  | .bind handle =>
    if j.state = .Queued then
      { j with state := .Bound, info := { j.info with curl_handle := handle } }
    else j
  | .launch origin_readable =>
    if j.state = .Bound then
      if origin_readable then { j with state := .InFlight }
      else j.finalize { j.info with error_code := Failures.kFailLocalIO }
    else j
  | .complete curl_error http_status jitter =>
    if j.state = .InFlight then
      let r := m.VerifyAndFinalize curl_error http_status j.info
      if r.1 then { j with state := .Retrying, info := (m.Backoff r.2 jitter).2.1 }
      else j.finalize r.2
    else j
  | .relaunch =>
    if j.state = .Retrying then { j with state := .InFlight } else j
  | .terminate =>
    if j.state = .Finalized then j
    else j.finalize { j.info with error_code := Failures.kFailLocalIO }

/-- The job after a sequence of event-loop actions. -/
def Submitted.run (m : S3FanoutManager) (j : Submitted) (events : List LoopEvent) :
    Submitted :=
  events.foldl (Submitted.step m) j

/-- The pool invariant: the idle and the in-use set are disjoint and together
hold the handles `1 .. pool_max_handles_`. -/
def S3FanoutManager.PoolOk (m : S3FanoutManager) : Prop :=
  Disjoint m.pool_handles_idle_ m.pool_handles_inuse_
  ∧ m.pool_handles_idle_ ∪ m.pool_handles_inuse_ = Finset.Icc 1 m.pool_max_handles_

end s3fanout

namespace cvmfs

/-! ## `SyncAufs1` of `cvmfs_sync_aufs.h` -/

/-- A `std::string`: its characters. -/
abbrev CppString := List Char

/-- The constant `std::string::npos`, the largest `size_t`. -/
def npos : Nat := 2 ^ 64 - 1

/-- The member `std::string::substr(pos, n)`: `none` stands for the
`std::out_of_range` it throws when `pos > size()`; otherwise the
`min(n, size() - pos)` characters from `pos` on. -/
def substr (s : CppString) (pos n : Nat) : Option CppString :=
  if pos > s.length then none
  else some ((s.drop pos).take (min n (s.length - pos)))

/-- The data members of `class SyncAufs1`. -/
structure SyncAufs1 where
  mIgnoredFilenames : Finset CppString
  mWhiteoutPrefix : CppString

/-- The inline member `SyncAufs1::isWhiteoutFilename`. -/
def SyncAufs1.isWhiteoutFilename (self : SyncAufs1) (filename : CppString) :
    Option Bool :=
  (substr filename 0 self.mWhiteoutPrefix.length).map
    (fun head => decide (head = self.mWhiteoutPrefix))

/-- The inline member `SyncAufs1::getFilenameFromWhiteout`; the second argument
of `substr` is its default, `npos`. -/
def SyncAufs1.getFilenameFromWhiteout (self : SyncAufs1) (filename : CppString) :
    Option CppString :=
  substr filename self.mWhiteoutPrefix.length npos

/-- The inline member `SyncAufs1::isIgnoredFilename`. -/
def SyncAufs1.isIgnoredFilename (self : SyncAufs1) (filename : CppString) : Bool :=
  decide (filename ∈ self.mIgnoredFilenames)

/-- An AUFS 1.x synchroniser with the whiteout prefix `.wh.`. -/
def SyncAufs1.sample : SyncAufs1 :=
  { mIgnoredFilenames := ∅, mWhiteoutPrefix := ['.', 'w', 'h', '.'] }

end cvmfs

/-! ## Theorems -/

namespace s3fanout

/-- C6: the `Failures` enumeration is closed and has exactly eight pairwise
distinct values, in declaration order `kFailOk`, `kFailLocalIO`,
`kFailBadRequest`, `kFailForbidden`, `kFailHostResolve`,
`kFailHostConnection`, `kFailNotFound`, `kFailOther`, with numeric codes 0
through 7; a value has code 0 if and only if it is `kFailOk`. -/
theorem Failures_closed_eight_codes :
    (∀ f : Failures, f ∈ Failures.all)
    ∧ Fintype.card Failures = 8
    ∧ Failures.all.length = 8
    ∧ Failures.all.Nodup
    ∧ Failures.all =
        [Failures.kFailOk, Failures.kFailLocalIO, Failures.kFailBadRequest,
         Failures.kFailForbidden, Failures.kFailHostResolve,
         Failures.kFailHostConnection, Failures.kFailNotFound, Failures.kFailOther]
    ∧ Failures.all.map Failures.code = [0, 1, 2, 3, 4, 5, 6, 7]
    ∧ (∀ f g : Failures, f.code = g.code → f = g)
    ∧ (∀ f : Failures, f.code = 0 ↔ f = Failures.kFailOk) := by
  refine ⟨?_, ?_, ?_, ?_, ?_, ?_, ?_, ?_⟩
  · intro f; cases f <;> decide
  · decide
  · decide
  · decide
  · rfl
  · rfl
  · intro f g; cases f <;> cases g <;> decide
  · intro f; cases f <;> decide

/-- C7: a freshly constructed `Statistics` value has `transferred_bytes = 0`,
`transfer_time = 0`, `num_requests = 0` and `num_retries = 0`. -/
theorem Statistics_new_all_zero :
    Statistics.new.transferred_bytes = 0
    ∧ Statistics.new.transfer_time = 0
    ∧ Statistics.new.num_requests = 0
    ∧ Statistics.new.num_retries = 0 :=
  ⟨rfl, rfl, rfl, rfl⟩

/-- C8: whatever the previous contents `u` and the arguments, the path-origin
constructor yields `origin = kOriginPath`, `origin_path = p` and the four
destination members equal to the references passed; the in-memory constructor
yields `origin = kOriginMem`, `origin_mem.data = buffer`,
`origin_mem.size = size` and the same four destination members; both leave
`test_and_set` false. -/
theorem JobInfo_constructors_fields (u : JobInfo) (a s b k p buffer : Ptr) (size : Nat) :
    ((JobInfo.newPath u a s b k p).origin = Origin.kOriginPath
      ∧ (JobInfo.newPath u a s b k p).origin_path = p
      ∧ (JobInfo.newPath u a s b k p).access_key = a
      ∧ (JobInfo.newPath u a s b k p).secret_key = s
      ∧ (JobInfo.newPath u a s b k p).bucket = b
      ∧ (JobInfo.newPath u a s b k p).object_key = k
      ∧ (JobInfo.newPath u a s b k p).test_and_set = false)
    ∧ ((JobInfo.newMem u a s b k buffer size).origin = Origin.kOriginMem
      ∧ (JobInfo.newMem u a s b k buffer size).origin_mem.data = buffer
      ∧ (JobInfo.newMem u a s b k buffer size).origin_mem.size = size
      ∧ (JobInfo.newMem u a s b k buffer size).access_key = a
      ∧ (JobInfo.newMem u a s b k buffer size).secret_key = s
      ∧ (JobInfo.newMem u a s b k buffer size).bucket = b
      ∧ (JobInfo.newMem u a s b k buffer size).object_key = k
      ∧ (JobInfo.newMem u a s b k buffer size).test_and_set = false) :=
  ⟨⟨rfl, rfl, rfl, rfl, rfl, rfl, rfl⟩, ⟨rfl, rfl, rfl, rfl, rfl, rfl, rfl, rfl⟩⟩

/-- C10: each of the three `JobInfo` constructors leaves `wait_at = (-1, -1)`
and `http_headers` null; the destructor closes descriptors if and only if
`wait_at[0] >= 0`, and then closes exactly `wait_at[0]` and `wait_at[1]`;
destroying a job that was only constructed closes no descriptor. -/
theorem JobInfo_pipe_unopened_and_destroy (u j : JobInfo) (a s b k p buffer : Ptr)
    (size : Nat) :
    ((JobInfo.new u).wait_at = (-1, -1) ∧ (JobInfo.new u).http_headers = NULL)
    ∧ ((JobInfo.newPath u a s b k p).wait_at = (-1, -1)
        ∧ (JobInfo.newPath u a s b k p).http_headers = NULL)
    ∧ ((JobInfo.newMem u a s b k buffer size).wait_at = (-1, -1)
        ∧ (JobInfo.newMem u a s b k buffer size).http_headers = NULL)
    ∧ (j.destroy ≠ [] ↔ j.wait_at.1 ≥ 0)
    ∧ (j.wait_at.1 ≥ 0 → j.destroy = [j.wait_at.1, j.wait_at.2])
    ∧ (¬ j.wait_at.1 ≥ 0 → j.destroy = [])
    ∧ (JobInfo.new u).destroy = []
    ∧ (JobInfo.newPath u a s b k p).destroy = []
    ∧ (JobInfo.newMem u a s b k buffer size).destroy = [] := by
  refine ⟨⟨rfl, rfl⟩, ⟨rfl, rfl⟩, ⟨rfl, rfl⟩, ?_, ?_, ?_, rfl, rfl, rfl⟩
  · unfold JobInfo.destroy
    split <;> simp_all
  · intro h
    simp [JobInfo.destroy, h]
  · intro h
    simp [JobInfo.destroy, h]

end s3fanout

namespace cvmfs

/-- A `substr` from position 0 never throws. -/
theorem substr_zero (s : CppString) (n : Nat) :
    substr s 0 n = some (s.take n) := by
  unfold substr
  simp only [gt_iff_lt, Nat.not_lt_zero, if_false, List.drop_zero, Nat.sub_zero]
  congr 1
  rcases Nat.le_total n s.length with h | h
  · rw [Nat.min_eq_left h]
  · rw [Nat.min_eq_right h, List.take_of_length_le h, List.take_of_length_le (le_refl _)]

/-- A `substr` up to `npos` from a position inside a string whose size is a
`size_t` gives the rest of the string. -/
theorem substr_npos (s : CppString) (pos : Nat) (hpos : pos ≤ s.length)
    (hsize : s.length ≤ npos) : substr s pos npos = some (s.drop pos) := by
  unfold substr
  rw [if_neg (Nat.not_lt.mpr hpos)]
  congr 1
  apply List.take_of_length_le
  rw [List.length_drop]
  exact le_min (le_trans (Nat.sub_le _ _) hsize) (le_refl _)

/-- The test `isWhiteoutFilename` succeeds exactly on the strings that start
with the prefix. -/
theorem isWhiteoutFilename_iff (self : SyncAufs1) (f : CppString) :
    self.isWhiteoutFilename f = some true ↔ self.mWhiteoutPrefix <+: f := by
  unfold SyncAufs1.isWhiteoutFilename
  rw [substr_zero]
  simp only [Option.map_some', Option.some.injEq, decide_eq_true_eq]
  constructor
  · intro h
    rw [← h]
    exact List.take_prefix _ _
  · intro h
    exact List.prefix_iff_eq_take.mp h |>.symm

/-- C9: for every whiteout prefix and every file name `n` (the concatenation
being a `std::string`, so of a size that fits `size_t`),
`isWhiteoutFilename(prefix + n)` is true and
`getFilenameFromWhiteout(prefix + n)` returns exactly `n`; and for every
filename `f` on which `isWhiteoutFilename` is true, `getFilenameFromWhiteout`
does not throw and the prefix followed by its result is `f`. -/
theorem whiteout_roundtrip (self : SyncAufs1) (n : CppString)
    (hsize : (self.mWhiteoutPrefix ++ n).length ≤ npos) :
    self.isWhiteoutFilename (self.mWhiteoutPrefix ++ n) = some true
    ∧ self.getFilenameFromWhiteout (self.mWhiteoutPrefix ++ n) = some n
    ∧ (∀ f : CppString, f.length ≤ npos → self.isWhiteoutFilename f = some true →
        ∃ r, self.getFilenameFromWhiteout f = some r ∧ self.mWhiteoutPrefix ++ r = f) := by
  refine ⟨?_, ?_, ?_⟩
  · exact (isWhiteoutFilename_iff self _).mpr (List.prefix_append _ _)
  · unfold SyncAufs1.getFilenameFromWhiteout
    rw [substr_npos _ _ (by simp) hsize, List.drop_left]
  · intro f hf hw
    obtain ⟨r, rfl⟩ := (isWhiteoutFilename_iff self f).mp hw
    refine ⟨r, ?_, rfl⟩
    unfold SyncAufs1.getFilenameFromWhiteout
    rw [substr_npos _ _ (by simp) hf, List.drop_left]

/-- C9 at the AUFS prefix `.wh.` and the file name `a`. -/
theorem whiteout_roundtrip_witness :
    (SyncAufs1.sample.mWhiteoutPrefix ++ ['a']).length ≤ npos
    ∧ SyncAufs1.sample.isWhiteoutFilename ['.', 'w', 'h', '.', 'a'] = some true
    ∧ SyncAufs1.sample.getFilenameFromWhiteout ['.', 'w', 'h', '.', 'a'] = some ['a'] :=
  ⟨by decide,
   (whiteout_roundtrip SyncAufs1.sample ['a'] (by decide)).1,
   (whiteout_roundtrip SyncAufs1.sample ['a'] (by decide)).2.1⟩

end cvmfs

namespace s3fanout

/-- C1: for every job and every configured maximum retry count, `CanRetry` is
true if and only if the job's classification is `kFailHostResolve`,
`kFailHostConnection` or `kFailOther` and `num_retries < opt_max_retries_`;
it is false for `kFailOk`, `kFailLocalIO`, `kFailBadRequest`,
`kFailForbidden` and `kFailNotFound` whatever the retry count. -/
theorem CanRetry_iff (m : S3FanoutManager) (info : JobInfo)
    (max_retries backoff_init_ms backoff_max_ms : Nat) :
    ((m.SetRetryParameters max_retries backoff_init_ms backoff_max_ms).CanRetry info = true
      ↔ (info.error_code = Failures.kFailHostResolve
          ∨ info.error_code = Failures.kFailHostConnection
          ∨ info.error_code = Failures.kFailOther)
        ∧ info.num_retries < max_retries)
    ∧ (m.CanRetry info = true
      ↔ (info.error_code = Failures.kFailHostResolve
          ∨ info.error_code = Failures.kFailHostConnection
          ∨ info.error_code = Failures.kFailOther)
        ∧ info.num_retries < m.opt_max_retries_)
    ∧ (∀ e : Failures,
        e = Failures.kFailOk ∨ e = Failures.kFailLocalIO ∨ e = Failures.kFailBadRequest
          ∨ e = Failures.kFailForbidden ∨ e = Failures.kFailNotFound →
        ∀ retries : Nat,
          m.CanRetry { info with error_code := e, num_retries := retries } = false) := by
  refine ⟨?_, ?_, ?_⟩
  · unfold S3FanoutManager.CanRetry S3FanoutManager.SetRetryParameters
    cases h : info.error_code <;> simp
  · unfold S3FanoutManager.CanRetry
    cases h : info.error_code <;> simp
  · intro e he retries
    unfold S3FanoutManager.CanRetry
    rcases he with rfl | rfl | rfl | rfl | rfl <;> simp

/-- C2: for a completed attempt whose transport result is success, the
classification that `VerifyAndFinalize` assigns depends on the HTTP status
code only: 400 gives `kFailBadRequest`, 403 and 409 give `kFailForbidden`,
404 gives `kFailNotFound`, every code from 200 to 299 gives `kFailOk`, and
every other code gives `kFailOther`. -/
theorem VerifyAndFinalize_classification (m m' : S3FanoutManager) (info info' : JobInfo)
    (http_status : Nat) :
    (m.VerifyAndFinalize .success http_status info).2.error_code
        = (m'.VerifyAndFinalize .success http_status info').2.error_code
    ∧ (m.VerifyAndFinalize .success 400 info).2.error_code = Failures.kFailBadRequest
    ∧ (m.VerifyAndFinalize .success 403 info).2.error_code = Failures.kFailForbidden
    ∧ (m.VerifyAndFinalize .success 409 info).2.error_code = Failures.kFailForbidden
    ∧ (m.VerifyAndFinalize .success 404 info).2.error_code = Failures.kFailNotFound
    ∧ (200 ≤ http_status ∧ http_status < 300 →
        (m.VerifyAndFinalize .success http_status info).2.error_code = Failures.kFailOk)
    ∧ (¬ (200 ≤ http_status ∧ http_status < 300) → http_status ≠ 400 →
        http_status ≠ 403 → http_status ≠ 409 → http_status ≠ 404 →
        (m.VerifyAndFinalize .success http_status info).2.error_code
          = Failures.kFailOther) := by
  refine ⟨rfl, rfl, rfl, rfl, rfl, ?_, ?_⟩
  · intro h
    have h1 : http_status ≠ 400 := by omega
    have h2 : http_status ≠ 403 := by omega
    have h3 : http_status ≠ 409 := by omega
    have h4 : http_status ≠ 404 := by omega
    simp [S3FanoutManager.VerifyAndFinalize, classify, h1, h2, h3, h4, h]
  · intro h h1 h2 h3 h4
    simp [S3FanoutManager.VerifyAndFinalize, classify, h1, h2, h3, h4, h]

end s3fanout

namespace s3fanout

end s3fanout

namespace s3fanout

/-- After `Init` the pool invariant holds. -/
theorem PoolOk_Init (u : S3FanoutManager) (n : Nat) : (u.Init n).PoolOk := by
  constructor
  · exact Finset.disjoint_empty_right _
  · exact Finset.union_empty _

/-- The call `AcquireCurlHandle` keeps the pool invariant. -/
theorem PoolOk_Acquire (m : S3FanoutManager) (hm : m.PoolOk) :
    m.AcquireCurlHandle.2.PoolOk ∧
      m.AcquireCurlHandle.2.pool_max_handles_ = m.pool_max_handles_ := by
  unfold S3FanoutManager.AcquireCurlHandle
  split
  · rename_i hne
    have hmem := Finset.min'_mem m.pool_handles_idle_ hne
    generalize m.pool_handles_idle_.min' hne = handle at hmem
    obtain ⟨hd, hu⟩ := hm
    refine ⟨⟨?_, ?_⟩, rfl⟩
    · show Disjoint (m.pool_handles_idle_.erase handle) (insert handle m.pool_handles_inuse_)
      rw [Finset.disjoint_left] at hd ⊢
      intro x hx hx'
      rw [Finset.mem_erase] at hx
      rw [Finset.mem_insert] at hx'
      rcases hx' with h | h
      · exact hx.1 h
      · exact hd hx.2 h
    · show m.pool_handles_idle_.erase handle ∪ insert handle m.pool_handles_inuse_
        = Finset.Icc 1 m.pool_max_handles_
      rw [← hu]
      ext x
      simp only [Finset.mem_union, Finset.mem_erase, Finset.mem_insert]
      constructor
      · rintro (⟨_, h⟩ | rfl | h)
        · exact Or.inl h
        · exact Or.inl hmem
        · exact Or.inr h
      · rintro (h | h)
        · by_cases hx : x = handle
          · exact Or.inr (Or.inl hx)
          · exact Or.inl ⟨hx, h⟩
        · exact Or.inr (Or.inr h)
  · exact ⟨hm, rfl⟩

/-- The call `ReleaseCurlHandle` keeps the pool invariant. -/
theorem PoolOk_Release (m : S3FanoutManager) (info : JobInfo) (handle : Ptr)
    (hm : m.PoolOk) :
    (m.ReleaseCurlHandle info handle).PoolOk ∧
      (m.ReleaseCurlHandle info handle).pool_max_handles_ = m.pool_max_handles_ := by
  unfold S3FanoutManager.ReleaseCurlHandle
  split
  · rename_i hmem
    obtain ⟨hd, hu⟩ := hm
    refine ⟨⟨?_, ?_⟩, rfl⟩
    · show Disjoint (insert handle m.pool_handles_idle_) (m.pool_handles_inuse_.erase handle)
      rw [Finset.disjoint_left] at hd ⊢
      intro x hx hx'
      rw [Finset.mem_erase] at hx'
      rw [Finset.mem_insert] at hx
      rcases hx with h | h
      · exact hx'.1 h
      · exact hd h hx'.2
    · show insert handle m.pool_handles_idle_ ∪ m.pool_handles_inuse_.erase handle
        = Finset.Icc 1 m.pool_max_handles_
      rw [← hu]
      ext x
      simp only [Finset.mem_union, Finset.mem_erase, Finset.mem_insert]
      constructor
      · rintro ((rfl | h) | ⟨_, h⟩)
        · exact Or.inr hmem
        · exact Or.inl h
        · exact Or.inr h
      · rintro (h | h)
        · exact Or.inl (Or.inr h)
        · by_cases hx : x = handle
          · exact Or.inl (Or.inl hx)
          · exact Or.inr ⟨hx, h⟩
  · exact ⟨hm, rfl⟩

/-- Any sequence of pool calls keeps the pool invariant and the maximum. -/
theorem PoolOk_poolRun (calls : List PoolCall) :
    ∀ m : S3FanoutManager, m.PoolOk →
      (m.poolRun calls).PoolOk ∧ (m.poolRun calls).pool_max_handles_ = m.pool_max_handles_ := by
  induction calls with
  | nil => intro m hm; exact ⟨hm, rfl⟩
  | cons c cs ih =>
    intro m hm
    have hstep : (m.poolStep c).PoolOk ∧ (m.poolStep c).pool_max_handles_ = m.pool_max_handles_ := by
      cases c with
      | acquire => exact PoolOk_Acquire m hm
      | release info handle => exact PoolOk_Release m info handle hm
    have := ih (m.poolStep c) hstep.1
    exact ⟨this.1, this.2.trans hstep.2⟩

/-- C4: after `Init(max_pool_handles, ...)`, for every sequence of
`AcquireCurlHandle` and `ReleaseCurlHandle` calls, the sets
`pool_handles_idle_` and `pool_handles_inuse_` are disjoint, every handle of
the pool is in exactly one of them, and the size of `pool_handles_inuse_` is
at most `pool_max_handles_`, which is the `max_pool_handles` given to `Init`. -/
theorem pool_disjoint_and_bounded (u : S3FanoutManager) (max_pool_handles : Nat)
    (calls : List PoolCall) :
    Disjoint ((u.Init max_pool_handles).poolRun calls).pool_handles_idle_
        ((u.Init max_pool_handles).poolRun calls).pool_handles_inuse_
    ∧ (∀ handle ∈ Finset.Icc 1 max_pool_handles,
        (handle ∈ ((u.Init max_pool_handles).poolRun calls).pool_handles_idle_
          ∧ handle ∉ ((u.Init max_pool_handles).poolRun calls).pool_handles_inuse_)
        ∨ (handle ∉ ((u.Init max_pool_handles).poolRun calls).pool_handles_idle_
          ∧ handle ∈ ((u.Init max_pool_handles).poolRun calls).pool_handles_inuse_))
    ∧ ((u.Init max_pool_handles).poolRun calls).pool_handles_inuse_.card
        ≤ ((u.Init max_pool_handles).poolRun calls).pool_max_handles_
    ∧ ((u.Init max_pool_handles).poolRun calls).pool_max_handles_ = max_pool_handles := by
  obtain ⟨⟨hd, hu⟩, hmax⟩ := PoolOk_poolRun calls (u.Init max_pool_handles) (PoolOk_Init u _)
  have hmax' : ((u.Init max_pool_handles).poolRun calls).pool_max_handles_ = max_pool_handles :=
    hmax
  rw [hmax'] at hu
  refine ⟨hd, ?_, ?_, hmax'⟩
  · intro handle hh
    rw [← hu, Finset.mem_union] at hh
    rw [Finset.disjoint_left] at hd
    rcases hh with h | h
    · exact Or.inl ⟨h, hd h⟩
    · exact Or.inr ⟨fun h' => hd h' h, h⟩
  · rw [hmax']
    calc ((u.Init max_pool_handles).poolRun calls).pool_handles_inuse_.card
        ≤ (Finset.Icc 1 max_pool_handles).card :=
          Finset.card_le_card (hu ▸ Finset.subset_union_right)
      _ = max_pool_handles := by simp

end s3fanout

namespace s3fanout

end s3fanout

namespace s3fanout

/-- A pool of two handles hands out both and then none: a third acquisition
returns no handle and leaves both in use. -/
theorem pool_of_two_saturates :
    ((S3FanoutManager.sample.Init 2).poolRun [.acquire, .acquire]).AcquireCurlHandle.1 = none
    ∧ ((S3FanoutManager.sample.Init 2).poolRun [.acquire, .acquire, .acquire]).pool_handles_inuse_
        = {1, 2}
    ∧ ((S3FanoutManager.sample.Init 2).poolRun
          [.acquire, .acquire, .release JobInfo.sample 1]).pool_handles_idle_ = {1} := by
  decide

/-- A job that fails to connect once, is retried and then succeeds goes
through every state and gets exactly `kFailOk` written to its pipe. -/
theorem retried_job_completes :
    ((S3FanoutManager.Push JobInfo.sample).run S3FanoutManager.sample
        [.bind 1, .launch true, .complete .connectionFailure 0 7]).state = JobState.Retrying
    ∧ ((S3FanoutManager.Push JobInfo.sample).run S3FanoutManager.sample
        [.bind 1, .launch true, .complete .connectionFailure 0 7]).info.backoff_ms = 100
    ∧ ((S3FanoutManager.Push JobInfo.sample).run S3FanoutManager.sample
        [.bind 1, .launch true, .complete .connectionFailure 0 7, .relaunch,
         .complete .success 200 0, .terminate]).written = [Failures.kFailOk] := by
  decide

/-- A job whose attempts keep failing to connect is finalized with
`kFailHostConnection` once its retry counter reaches the maximum of 3. -/
theorem exhausted_job_completes :
    ((S3FanoutManager.Push JobInfo.sample).run S3FanoutManager.sample
        [.bind 1, .launch true,
         .complete .connectionFailure 0 0, .relaunch,
         .complete .connectionFailure 0 0, .relaunch,
         .complete .connectionFailure 0 0, .relaunch,
         .complete .connectionFailure 0 0])
      = { state := JobState.Finalized,
          info := { JobInfo.sample with
            curl_handle := 1, error_code := Failures.kFailHostConnection,
            num_retries := 3, backoff_ms := 400 },
          written := [Failures.kFailHostConnection] } := by
  decide

end s3fanout
